import Mathlib

/-!
Shallow embedding of `src/assets/generate_icon.py`: a linear script that
draws a four-letter "LAMA" wordmark onto a 1024×1024 RGBA canvas and
exports it as `icon.png` plus six resized copies.

Pixel-level rasterisation is performed by the PIL library; the embedding
models an image as its dimensions, background colour and the ordered list
of drawing commands issued on it, and models the filesystem as a list of
directories plus an association list from file names to saved images.
-/

/-- An RGBA colour, each channel 0–255 as in PIL colour tuples. -/
structure RGBA where
  r : Nat
  g : Nat
  b : Nat
  a : Nat
deriving DecidableEq, Repr

/-- A font handle. PIL fonts are opaque resources; the embedding keeps an
identifying tag (the path loaded, or "default" for the built-in font). -/
structure Font where
  tag : String
deriving DecidableEq, Repr

/-- A drawing command issued on the canvas, mirroring the `ImageDraw` calls
made by the script: one `ellipse` call and the `text` calls of the loop. -/
inductive DrawCmd where
  | ellipse (x0 y0 x1 y1 : Nat) (fill : RGBA) (outline : RGBA) (width : Nat)
  | text (x y : Nat) (s : String) (fill : RGBA) (font : Font) (anchor : String)
deriving DecidableEq, Repr

/-- An in-memory image: dimensions, the fill colour passed to `Image.new`,
and the drawing commands applied to it since creation. -/
structure Img where
  width : Nat
  height : Nat
  background : RGBA
  cmds : List DrawCmd
deriving DecidableEq, Repr

/-- `img.resize((n, n), LANCZOS)`: PIL returns a freshly allocated image of
the target dimensions resampled from the source; the source is not touched. -/
def Img.resize (img : Img) (n : Nat) : Img :=
  { img with width := n, height := n }

/-- `size = 1024`. -/
def size : Nat := 1024

/-- `img = Image.new('RGBA', (size, size), (10, 10, 10, 255))`. -/
def baseCanvas : Img :=
  { width := size, height := size, background := ⟨10, 10, 10, 255⟩, cmds := [] }

/-- `center = size // 2`. -/
def center : Nat := size / 2

/-- `radius = 450`. -/
def radius : Nat := 450

/-- The `draw.ellipse` call: bounding box `[center±radius]`, fill
`(20,20,20,255)`, outline `(40,40,40,255)`, width 2. -/
def circleCmd : DrawCmd :=
  .ellipse (center - radius) (center - radius) (center + radius) (center + radius)
    ⟨20, 20, 20, 255⟩ ⟨40, 40, 40, 255⟩ 2

/-- `letters`: the four (character, hex colour) pairs of the wordmark. -/
def letters : List (String × String) :=
  [("L", "#ef4444"), ("A", "#eab308"), ("M", "#22c55e"), ("A", "#a855f7")]

/-- The two `ImageFont.truetype` candidate paths tried by the script, each at
point size 280, in the order of the nested `try`/`except` blocks. -/
def candidateFonts : List (String × Nat) :=
  [("/System/Library/Fonts/Helvetica.ttc", 280),
   ("/System/Library/Fonts/Avenir.ttc", 280)]

/-- `ImageFont.load_default()`: the built-in fallback font. -/
def defaultFont : Font := ⟨"default"⟩

/-- A font environment: which candidate font paths load successfully on the
running system (`none` models `truetype` raising, caught by the bare
`except`). -/
def FontEnv : Type := String → Option Font

/-- The nested `try`/`except` font-resolution chain: try Helvetica, then
Avenir, and fall back to the built-in default when both fail. -/
def resolveFont (env : FontEnv) : Font :=
  match env "/System/Library/Fonts/Helvetica.ttc" with
  | some f => f
  | none =>
    match env "/System/Library/Fonts/Avenir.ttc" with
    | some f => f
    | none => defaultFont

/-- `letter_spacing = 200`. -/
def letter_spacing : Nat := 200

/-- `total_width = letter_spacing * (len(letters) - 1)`. -/
def total_width : Nat := letter_spacing * (letters.length - 1)

/-- `start_x = center - total_width // 2`. -/
def start_x : Nat := center - total_width / 2

/-- `y_pos = center - 20`. -/
def y_pos : Nat := center - 20

/-- `x = start_x + i * letter_spacing`: glyph centre x for index `i`. -/
def xPos (i : Nat) : Nat := start_x + i * letter_spacing

/-- The value of a hexadecimal digit character, as Python's `int(s, 16)`
interprets each digit. -/
def hexDigitVal (c : Char) : Nat :=
  if 48 ≤ c.toNat ∧ c.toNat ≤ 57 then c.toNat - 48
  else if 97 ≤ c.toNat ∧ c.toNat ≤ 102 then c.toNat - 97 + 10
  else if 65 ≤ c.toNat ∧ c.toNat ≤ 70 then c.toNat - 65 + 10
  else 0

/-- `int(color[i:i+2], 16)`: the two-hex-digit byte starting at index `i`. -/
def hexPair (cs : List Char) (i : Nat) : Nat :=
  16 * hexDigitVal (cs.getD i '0') + hexDigitVal (cs.getD (i + 1) '0')

/-- The RGB decoding in the loop body: `r = int(color[1:3], 16)`,
`g = int(color[3:5], 16)`, `b = int(color[5:7], 16)`, drawn with alpha 255. -/
def hexToRGBA (color : String) : RGBA :=
  let cs := color.toList
  ⟨hexPair cs 1, hexPair cs 3, hexPair cs 5, 255⟩

/-- The two `draw.text` calls of one loop iteration: the shadow at
`(x+4, y_pos+4)` in `(0,0,0,128)`, then the glyph at `(x, y_pos)` in its
decoded colour, both with `anchor='mm'`. -/
def glyphCmds (font : Font) (i : Nat) (letter : String) (color : String) : List DrawCmd :=
  [ .text (xPos i + 4) (y_pos + 4) letter ⟨0, 0, 0, 128⟩ font "mm",
    .text (xPos i) (y_pos) letter (hexToRGBA color) font "mm" ]

/-- The `for i, (letter, color) in enumerate(letters)` loop, in order. -/
def letterCmds (font : Font) : List DrawCmd :=
  letters.enum.flatMap fun p => glyphCmds font p.1 p.2.1 p.2.2

/-- The fully drawn base canvas: the circle backdrop followed by the eight
text commands of the letter loop. -/
def renderBase (font : Font) : Img :=
  { baseCanvas with cmds := circleCmd :: letterCmds font }

/-- `sizes = [16, 32, 64, 128, 256, 512]`. -/
def sizes : List Nat := [16, 32, 64, 128, 256, 512]

/-- Filesystem state: directories present and files saved (name ↦ image). -/
structure FS where
  dirs : List String
  files : List (String × Img)
deriving DecidableEq, Repr

/-- The empty filesystem (fresh output location, nothing written yet). -/
def fsEmpty : FS := ⟨[], []⟩

/-- Store a file, overwriting an existing entry of the same name in place
(as rewriting a path does on a real filesystem). -/
def setFile : List (String × Img) → String → Img → List (String × Img)
  | [], n, i => [(n, i)]
  | (m, j) :: rest, n, i =>
    if m = n then (n, i) :: rest else (m, j) :: setFile rest n i

/-- `img.save(path, 'PNG')`: persist the image under the given name. -/
def writeFile (fs : FS) (name : String) (img : Img) : FS :=
  { fs with files := setFile fs.files name img }

/-- `os.makedirs(d, exist_ok=...)`: create the directory; when it already
exists, succeed if `exist_ok` is set and raise `FileExistsError` otherwise. -/
def makedirs (fs : FS) (d : String) (exist_ok : Bool) : Except String FS :=
  if d ∈ fs.dirs then
    if exist_ok then .ok fs else .error "FileExistsError"
  else .ok { fs with dirs := d :: fs.dirs }

/-- The export name `f'icon-{icon_size}.png'`. -/
def exportName (n : Nat) : String := "icon-" ++ toString n ++ ".png"

/-- The `for icon_size in sizes` loop: resize the base image to each target
size (fresh buffer each time) and save the copy. -/
def exportLoop (img : Img) (fs : FS) : FS :=
  sizes.foldl (fun acc n => writeFile acc (exportName n) (img.resize n)) fs

/-- The tail of the script: create the output directory with
`exist_ok=True`, save `icon.png`, then run the export loop. -/
def runScript (font : Font) (fs : FS) : Except String FS :=
  match makedirs fs "icons" true with
  | .error e => .error e
  | .ok fs1 =>
    let base := renderBase font
    let fs2 := writeFile fs1 "icon.png" base
    .ok (exportLoop base fs2)

/-- The whole program for a given font environment: resolve the font, then
draw and export. -/
def runProgram (env : FontEnv) (fs : FS) : Except String FS :=
  runScript (resolveFont env) fs

/-- Name, width and height of every saved file, in saved order. -/
def fileDims (fs : FS) : List (String × Nat × Nat) :=
  fs.files.map fun p => (p.1, p.2.width, p.2.height)

/-- Looking up a saved file's content by name. -/
def lookupFile : List (String × Img) → String → Option Img
  | [], _ => none
  | (m, j) :: rest, n => if m = n then some j else lookupFile rest n

/-- The expected (name, width, height) triples of the seven output files. -/
def expectedDims : List (String × Nat × Nat) :=
  [("icon.png", 1024, 1024), ("icon-16.png", 16, 16), ("icon-32.png", 32, 32),
   ("icon-64.png", 64, 64), ("icon-128.png", 128, 128), ("icon-256.png", 256, 256),
   ("icon-512.png", 512, 512)]

/-- Claim C1: after one run on a fresh output location, exactly 7 files are
present — `icon.png` plus `icon-{16,32,64,128,256,512}.png` — and each saved
image is square with width = height = its advertised dimension (1024 for the
base, N for each `icon-N.png`). -/
theorem c1_output_file_set (font : Font) :
    (runScript font fsEmpty).map fileDims = .ok expectedDims ∧
    (runScript font fsEmpty).map (fun fs => fs.files.length) = .ok 7 :=
  ⟨rfl, rfl⟩

/-- Claim C2: with size 1024, spacing 200 and 4 letters, the glyph centre
x-positions are canvas centre + {−300, −100, +100, +300}, i.e. 212, 412,
612, 812, and the shared vertical position is centre − 20, i.e. 492. -/
theorem c2_glyph_positions :
    [xPos 0, xPos 1, xPos 2, xPos 3] =
      [center - 300, center - 100, center + 100, center + 300] ∧
    [xPos 0, xPos 1, xPos 2, xPos 3] = [212, 412, 612, 812] ∧
    y_pos = center - 20 ∧ y_pos = 492 := by
  decide

/-- Claim C3: for every index i of the letter sequence, the x-position of
glyph i plus the x-position of glyph (count−1−i) equals twice the canvas
centre: the glyph positions are symmetric about the horizontal centre. -/
theorem c3_position_symmetry :
    ∀ i : Fin letters.length,
      xPos i.val + xPos (letters.length - 1 - i.val) = 2 * center := by
  decide

/-- Claim C4 counterexample: the claim says the fallback chain makes three
ordered attempts at candidate system font resources, with the built-in
default used only after all three fail; the script's chain has exactly two
candidate system font resources (Helvetica.ttc, then Avenir.ttc), not three. -/
theorem c4_counterexample :
    candidateFonts.length = 2 ∧ ¬ candidateFonts.length = 3 := by
  decide

/-- Claim C4 (amended): the font-fallback chain consists of two ordered
attempts at candidate system font resources — Helvetica.ttc then
Avenir.ttc — where the first success wins, and the terminal built-in
default font is used only on exhaustion of both candidates. -/
theorem c4_fallback_chain (env : FontEnv) :
    candidateFonts.length = 2 ∧
    (∀ f, env "/System/Library/Fonts/Helvetica.ttc" = some f →
      resolveFont env = f) ∧
    (env "/System/Library/Fonts/Helvetica.ttc" = none →
      ∀ f, env "/System/Library/Fonts/Avenir.ttc" = some f →
        resolveFont env = f) ∧
    (env "/System/Library/Fonts/Helvetica.ttc" = none →
      env "/System/Library/Fonts/Avenir.ttc" = none →
        resolveFont env = defaultFont) := by
  refine ⟨rfl, ?_, ?_, ?_⟩
  · intro f h
    simp [resolveFont, h]
  · intro h1 f h2
    simp [resolveFont, h1, h2]
  · intro h1 h2
    simp [resolveFont, h1, h2]

/-- Witness for the amended C4: with no candidate available, the chain
resolves to the built-in default font. -/
theorem c4_fallback_chain_witness :
    resolveFont (fun _ => none) = defaultFont :=
  (c4_fallback_chain (fun _ => none)).2.2.2 rfl rfl

/-- Claim C5: if every candidate system font fails to load, the run still
succeeds: the built-in default font is used and the full 7-file set is
produced with the correct dimensions. -/
theorem c5_fallback_run_completes (env : FontEnv)
    (h1 : env "/System/Library/Fonts/Helvetica.ttc" = none)
    (h2 : env "/System/Library/Fonts/Avenir.ttc" = none) :
    resolveFont env = defaultFont ∧
    (runProgram env fsEmpty).map fileDims = .ok expectedDims := by
  have hf : resolveFont env = defaultFont := by
    simp [resolveFont, h1, h2]
  refine ⟨hf, ?_⟩
  rw [runProgram, hf]
  exact rfl

/-- Witness for C5: the environment where no font path loads. -/
theorem c5_fallback_run_completes_witness :
    resolveFont (fun _ => none) = defaultFont ∧
    (runProgram (fun _ => none) fsEmpty).map fileDims = .ok expectedDims :=
  c5_fallback_run_completes (fun _ => none) rfl rfl

/-- Claim C6: the renderer is deterministic for a fixed font resource: a
second run writes every output file again with byte-identical content, so
running the script twice leaves the filesystem exactly as one run does (and,
the embedding being a pure function of the font, any two runs from the same
state produce equal file contents). -/
theorem c6_two_run_determinism (font : Font) :
    (runScript font fsEmpty).bind (runScript font) = runScript font fsEmpty :=
  rfl

/-- Claim C7: for each glyph-colour pair in order, the loop first draws the
shadow at the glyph position offset by (+4, +4) in 50%-opacity black
(0,0,0,128), then the glyph itself at the unshifted position in its decoded
colour, both with centre anchor `mm`. -/
theorem c7_shadow_then_glyph (font : Font) :
    letterCmds font =
      [ .text (xPos 0 + 4) (y_pos + 4) "L" ⟨0, 0, 0, 128⟩ font "mm",
        .text (xPos 0) y_pos "L" ⟨239, 68, 68, 255⟩ font "mm",
        .text (xPos 1 + 4) (y_pos + 4) "A" ⟨0, 0, 0, 128⟩ font "mm",
        .text (xPos 1) y_pos "A" ⟨234, 179, 8, 255⟩ font "mm",
        .text (xPos 2 + 4) (y_pos + 4) "M" ⟨0, 0, 0, 128⟩ font "mm",
        .text (xPos 2) y_pos "M" ⟨34, 197, 94, 255⟩ font "mm",
        .text (xPos 3 + 4) (y_pos + 4) "A" ⟨0, 0, 0, 128⟩ font "mm",
        .text (xPos 3) y_pos "A" ⟨168, 85, 247, 255⟩ font "mm" ] :=
  rfl

/-- Claim C8: creating the output directory when it already exists is a
success, not an error: `makedirs` with `exist_ok=True` on a present
directory returns the filesystem unchanged. -/
theorem c8_makedirs_idempotent (fs : FS) (d : String) (h : d ∈ fs.dirs) :
    makedirs fs d true = .ok fs := by
  simp [makedirs, h]

/-- Witness for C8: recreating an existing `icons` directory succeeds. -/
theorem c8_makedirs_idempotent_witness :
    makedirs ⟨["icons"], []⟩ "icons" true = .ok ⟨["icons"], []⟩ :=
  c8_makedirs_idempotent ⟨["icons"], []⟩ "icons" (by decide)

/-- Claim C9: the export loop treats the base canvas as a read-only source:
after the full run, the saved `icon.png` still holds exactly the base image
(unchanged by the six exports), and each `icon-N.png` holds a fresh resize
of that same base image, of width and height N. -/
theorem c9_exports_from_base (font : Font) :
    (runScript font fsEmpty).map (fun fs => lookupFile fs.files "icon.png") =
      .ok (some (renderBase font)) ∧
    ∀ n ∈ sizes,
      (runScript font fsEmpty).map (fun fs => lookupFile fs.files (exportName n)) =
        .ok (some ((renderBase font).resize n)) ∧
      ((renderBase font).resize n).width = n ∧
      ((renderBase font).resize n).height = n := by
  refine ⟨rfl, ?_⟩
  intro n hn
  fin_cases hn <;> exact ⟨rfl, rfl, rfl⟩

/-- Witness for C9: the base file and the 16-pixel export after a concrete
run with the default font. -/
theorem c9_exports_from_base_witness :
    (runScript defaultFont fsEmpty).map (fun fs => lookupFile fs.files "icon.png") =
      .ok (some (renderBase defaultFont)) ∧
    (runScript defaultFont fsEmpty).map (fun fs => lookupFile fs.files (exportName 16)) =
      .ok (some ((renderBase defaultFont).resize 16)) :=
  ⟨(c9_exports_from_base defaultFont).1,
   ((c9_exports_from_base defaultFont).2 16 (by decide)).1⟩

/-- Claim C10: the RGB decoding of each letter's hex constant, drawn with
full alpha 255, is (239,68,68,255) for L, (234,179,8,255) for the first A,
(34,197,94,255) for M and (168,85,247,255) for the second A; and these are
exactly the fills of the four glyph (non-shadow) draw commands, which sit at
odd indices of the command list. -/
theorem c10_glyph_fill_colors (font : Font) :
    (letters.map fun p => hexToRGBA p.2) =
      [⟨239, 68, 68, 255⟩, ⟨234, 179, 8, 255⟩,
       ⟨34, 197, 94, 255⟩, ⟨168, 85, 247, 255⟩] ∧
    (letterCmds font)[1]? =
      some (.text (xPos 0) y_pos "L" ⟨239, 68, 68, 255⟩ font "mm") ∧
    (letterCmds font)[3]? =
      some (.text (xPos 1) y_pos "A" ⟨234, 179, 8, 255⟩ font "mm") ∧
    (letterCmds font)[5]? =
      some (.text (xPos 2) y_pos "M" ⟨34, 197, 94, 255⟩ font "mm") ∧
    (letterCmds font)[7]? =
      some (.text (xPos 3) y_pos "A" ⟨168, 85, 247, 255⟩ font "mm") :=
  ⟨rfl, rfl, rfl, rfl, rfl⟩
